import Mathlib

/-!
Shallow embedding of `custom_components/daybetter_light_local` (coordinator.py,
light.py, const.py): the device state cache, liveness sweep, notification
registry and command dispatch of `DayBetterLocalApiCoordinator`, together with
the offline guard of the `DayBetterLight` entity layer.

Python dicts are modelled as association lists with first-occurrence lookup and
in-place replacement; timestamps are naturals; callbacks are identified by
numeric handles, with their runtime behaviour (return or raise) supplied as a
function into `Except`.
-/

namespace DayBetter

/-- One inbound device object (`DayBetterDevice`) as seen by the coordinator's
message handlers: the attributes read by `_update_device_state_cache`
(coordinator.py lines 143-152). -/
structure Device where
  fingerprint : String
  /-- Embeds the Python attribute `on` (`on` is a reserved token in Lean) -/
  isOn : Bool
  brightness : Nat
  rgb_color : Option (Nat × Nat × Nat)
  temperature_color : Option Nat
  scene : Option String
  sku : String
deriving DecidableEq, Repr

/-- A cached per-device snapshot: the value stored under one fingerprint in
`self._device_state_cache` (coordinator.py lines 143-152).  Entries are always
created with all keys present, so the record is total. -/
structure Snapshot where
  /-- Embeds the cache key `on` (`on` is a reserved token in Lean) -/
  isOn : Bool
  brightness : Nat
  rgb_color : Option (Nat × Nat × Nat)
  temperature_color : Option Nat
  scene : Option String
  sku : String
  last_updated : Nat
  online : Bool
deriving DecidableEq, Repr

/-- First-occurrence lookup in an association list (Python `dict[k]` /
`k in dict`). -/
def listLookup {α : Type} : List (String × α) → String → Option α
  | [], _ => none
  | (k, v) :: rest, key => if key = k then some v else listLookup rest key

/-- Replace the first binding of `k` in place, or append a new binding
(Python `dict[k] = v`). -/
def listInsert {α : Type} (k : String) (v : α) : List (String × α) → List (String × α)
  | [] => [(k, v)]
  | (k', v') :: rest => if k = k' then (k, v) :: rest else (k', v') :: listInsert k v rest

/-- The mutable coordinator state: `_device_state_cache`,
`_device_last_response`, `_device_entity_callbacks` and `_known_devices`
(coordinator.py lines 61-67).  Callback handles are naturals. -/
structure CoordState where
  device_state_cache : List (String × Snapshot)
  device_last_response : List (String × Nat)
  device_entity_callbacks : List (String × List Nat)
  known_devices : List String
deriving DecidableEq, Repr

/-! ## Notification registry -/

/-- Embeds `register_device_entity` (coordinator.py lines 163-170): create the list
for the fingerprint if absent, then append the callback only if it is not
already present. -/
def register_device_entity (fp : String) (cb : Nat) (cbs : List (String × List Nat)) :
    List (String × List Nat) :=
  match listLookup cbs fp with
  | none => cbs ++ [(fp, [cb])]
  | some cur => if cb ∈ cur then cbs else listInsert fp (cur ++ [cb]) cbs

/-- Embeds `unregister_device_entity` (coordinator.py lines 172-176): remove the first
occurrence of the callback when the fingerprint is registered and the callback
is in its list; otherwise do nothing. -/
def unregister_device_entity (fp : String) (cb : Nat) (cbs : List (String × List Nat)) :
    List (String × List Nat) :=
  match listLookup cbs fp with
  | none => cbs
  | some cur => if cb ∈ cur then listInsert fp (cur.erase cb) cbs else cbs

/-- The body of `_notify_device_entities`'s loop (coordinator.py lines
157-161): each callback is invoked in order; a callback that raises has its
exception caught and logged inside the loop body, so iteration continues.
Returns the callbacks invoked, in order, and the error messages logged. -/
def invokeAll (beh : Nat → Except String Unit) : List Nat → List Nat × List String
  | [] => ([], [])
  | cb :: rest =>
    let logged : List String :=
      match beh cb with
      | Except.ok _ => []
      | Except.error e => [e]
    let tail := invokeAll beh rest
    (cb :: tail.1, logged ++ tail.2)

/-- Embeds `_notify_device_entities` (coordinator.py lines 154-161): if the
fingerprint has registered callbacks, invoke each of them under the
per-callback exception handler.  The function is total: no exception escapes
the notify path. -/
def notify_device_entities (beh : Nat → Except String Unit)
    (cbs : List (String × List Nat)) (fp : String) : List Nat × List String :=
  match listLookup cbs fp with
  | none => ([], [])
  | some l => invokeAll beh l

/-! ## State cache ingestion -/

/-- The full-attribute dict written by `_update_device_state_cache`
(coordinator.py lines 143-152): every field is overwritten from the device
object, `last_updated` is set to the current time and `online` to true. -/
def snapshotOfDevice (now : Nat) (d : Device) : Snapshot :=
  { isOn := d.isOn
    brightness := d.brightness
    rgb_color := d.rgb_color
    temperature_color := d.temperature_color
    scene := d.scene
    sku := d.sku
    last_updated := now
    online := true }

/-- Embeds `_update_device_state_cache` (coordinator.py lines 135-152): because the
update dict contains every key, creating the entry from an empty dict and
merging into an existing one both yield the same full snapshot. -/
def update_device_state_cache (now : Nat) (d : Device)
    (cache : List (String × Snapshot)) : List (String × Snapshot) :=
  listInsert d.fingerprint (snapshotOfDevice now d) cache

/-- Embeds `_handle_device_update` (coordinator.py lines 118-133): refresh
`_device_last_response`, rewrite the cache entry, notify the entities of the
fingerprint.  Returns the new state and the fingerprints notified. -/
def handle_device_update (now : Nat) (d : Device) (st : CoordState) :
    CoordState × List String :=
  ({ st with
      device_last_response := listInsert d.fingerprint now st.device_last_response
      device_state_cache := update_device_state_cache now d st.device_state_cache },
   [d.fingerprint])

/-- Embeds `_handle_device_discovery` (coordinator.py lines 87-116): add the
fingerprint to the known-device set, refresh `_device_last_response`, rewrite
the cache entry; then a first sighting is handed to the external discovery
callback (outside the entity-notification registry, so not tracked here),
while a re-announcement notifies the fingerprint's registered entities. -/
def handle_device_discovery (now : Nat) (d : Device) (isNew : Bool)
    (st : CoordState) : CoordState × List String :=
  let st1 : CoordState :=
    { st with
        known_devices :=
          if d.fingerprint ∈ st.known_devices then st.known_devices
          else st.known_devices ++ [d.fingerprint]
        device_last_response := listInsert d.fingerprint now st.device_last_response
        device_state_cache := update_device_state_cache now d st.device_state_cache }
  if isNew then (st1, []) else (st1, [d.fingerprint])

/-- Embeds `is_device_online` (coordinator.py lines 308-312). -/
def is_device_online (st : CoordState) (fp : String) : Bool :=
  match listLookup st.device_state_cache fp with
  | some snap => snap.online
  | none => false

/-! ## Command dispatch -/

/-- The six coordinator command methods (coordinator.py lines 182-274). -/
inductive Command
  | turnOn
  | turnOff
  | setBrightness (b : Nat)
  | setRgb (r g b : Nat)
  | setTemperature (k : Nat)
  | setScene (s : String)
deriving DecidableEq, Repr

deriving instance DecidableEq for Except

/-- Result of one command call: the coordinator state afterwards, the
fingerprints for which `_notify_device_entities` ran, whether a transport
send (`await device.turn_on()` etc.) was attempted, and the value returned
to the caller (an `Except.error` models the re-raised exception). -/
structure CmdOutcome where
  state : CoordState
  notified : List String
  sent : Bool
  result : Except String Unit
deriving DecidableEq, Repr

/-- The partial cache update each command applies on success; every method
also sets `last_updated` to the current time:
`turn_on` lines 189-190, `turn_off` lines 204-205, `set_brightness` lines
219-220, `set_rgb_color` lines 236-238, `set_temperature` lines 252-254,
`set_scene` lines 268-269. -/
def commandPatch (c : Command) (now : Nat) (snap : Snapshot) : Snapshot :=
  match c with
  | Command.turnOn => { snap with isOn := true, last_updated := now }
  | Command.turnOff => { snap with isOn := false, last_updated := now }
  | Command.setBrightness b => { snap with brightness := b, last_updated := now }
  | Command.setRgb r g b =>
      { snap with rgb_color := some (r, g, b), temperature_color := none, last_updated := now }
  | Command.setTemperature k =>
      { snap with temperature_color := some k, rgb_color := none, last_updated := now }
  | Command.setScene s => { snap with scene := some s, last_updated := now }

/-- The shared skeleton of the coordinator command methods (coordinator.py
lines 182-274): attempt the transport send; on an exception, log and re-raise
with nothing else done; on success, update the cache entry and notify only if
the fingerprint already has a cache entry.  `sendRes` is the outcome of the
awaited device call. -/
def coordDispatch (c : Command) (sendRes : Except String Unit) (now : Nat)
    (fp : String) (st : CoordState) : CmdOutcome :=
  match sendRes with
  | Except.error e => { state := st, notified := [], sent := true, result := Except.error e }
  | Except.ok _ =>
    match listLookup st.device_state_cache fp with
    | none => { state := st, notified := [], sent := true, result := Except.ok () }
    | some snap =>
      { state :=
          { st with
              device_state_cache := listInsert fp (commandPatch c now snap) st.device_state_cache }
        notified := [fp]
        sent := true
        result := Except.ok () }

/-- The entity-layer command path (light.py `async_turn_on` lines 300-304 and
`async_turn_off` lines 368-372): both begin with
`if not self.available: return`, where `available` is
`coordinator.is_device_online` (light.py line 242), so an offline device is
rejected before any transport call; when online, dispatch proceeds to the
coordinator command method, whose exception the surrounding
`try/except` of the entity method catches and logs (light.py lines 365-366). -/
def entityDispatch (c : Command) (sendRes : Except String Unit) (now : Nat)
    (fp : String) (st : CoordState) : CmdOutcome :=
  if is_device_online st fp then
    let o := coordDispatch c sendRes now fp st
    { o with result := Except.ok () }
  else
    { state := st, notified := [], sent := false, result := Except.ok () }

/-! ## Liveness sweep -/

/-- The per-fingerprint body of the sweep loop in `_async_update_data`
(coordinator.py lines 293-304): if more than 90 seconds have passed since the
last response (`self._device_last_response.get(fingerprint, 0)`) and the cache
entry exists and is currently online, set `online = False` and
`last_updated = current_time` and notify the fingerprint's entities. -/
def sweepOne (now : Nat) (st : CoordState) (fp : String) : CoordState × List String :=
  if now - (listLookup st.device_last_response fp).getD 0 > 90 then
    match listLookup st.device_state_cache fp with
    | some snap =>
      if snap.online then
        ({ st with
            device_state_cache :=
              listInsert fp { snap with online := false, last_updated := now }
                st.device_state_cache },
         [fp])
      else (st, [])
    | none => (st, [])
  else (st, [])

/-- The sweep loop over a list of fingerprints, threading the state and
concatenating the notifications. -/
def sweepGo (now : Nat) : List String → CoordState → CoordState × List String
  | [], st => (st, [])
  | fp :: rest, st =>
    let step := sweepOne now st fp
    let tail := sweepGo now rest step.1
    (tail.1, step.2 ++ tail.2)

/-- The liveness part of `_async_update_data` (coordinator.py lines 284-306):
iterate over `list(self._device_last_response.keys())`, marking stale online
devices offline and notifying each transition. -/
def sweep (now : Nat) (st : CoordState) : CoordState × List String :=
  sweepGo now (st.device_last_response.map Prod.fst) st

/-- The mutual-exclusion predicate of the spec's data model: not both
`rgb_color` and `temperature_color` set. -/
def colorStateValid (s : Snapshot) : Bool :=
  !(s.rgb_color.isSome && s.temperature_color.isSome)

/-! ## Concrete sample data for witnesses and counterexamples -/

/-- An offline cached snapshot for the offline-command scenario. -/
def snapC1 : Snapshot :=
  { isOn := true, brightness := 40, rgb_color := none, temperature_color := none,
    scene := none, sku := "P076", last_updated := 3, online := false }

/-- A coordinator state whose only device is offline. -/
def stC1 : CoordState :=
  { device_state_cache := [("AA:BB", snapC1)]
    device_last_response := [("AA:BB", 0)]
    device_entity_callbacks := [("AA:BB", [7])]
    known_devices := ["AA:BB"] }

/-- A device object reporting both an RGB colour and a colour temperature. -/
def devC2both : Device :=
  { fingerprint := "AA:BB", isOn := true, brightness := 80,
    rgb_color := some (10, 20, 30), temperature_color := some 4000,
    scene := none, sku := "P076" }

/-- The snapshot `_update_device_state_cache` writes for `devC2both`. -/
def snapC2both : Snapshot :=
  { isOn := true, brightness := 80, rgb_color := some (10, 20, 30),
    temperature_color := some 4000, scene := none, sku := "P076",
    last_updated := 7, online := true }

/-- A cached snapshot with no colour set. -/
def snapC2 : Snapshot :=
  { isOn := false, brightness := 50, rgb_color := none, temperature_color := none,
    scene := none, sku := "P076", last_updated := 1, online := true }

/-- A coordinator state holding `snapC2`. -/
def stC2 : CoordState :=
  { device_state_cache := [("AA:BB", snapC2)]
    device_last_response := [("AA:BB", 0)]
    device_entity_callbacks := []
    known_devices := ["AA:BB"] }

/-- A device object with only an RGB colour set. -/
def devC2ok : Device :=
  { fingerprint := "AA:BB", isOn := true, brightness := 80,
    rgb_color := some (10, 20, 30), temperature_color := none,
    scene := none, sku := "P076" }

/-- An online cached snapshot last seen at time 0. -/
def snapC3 : Snapshot :=
  { isOn := true, brightness := 60, rgb_color := none, temperature_color := some 3000,
    scene := none, sku := "P076", last_updated := 0, online := true }

/-- A coordinator state for the offline-sweep scenario: one online device,
silent since time 0. -/
def stC3 : CoordState :=
  { device_state_cache := [("AA:BB", snapC3)]
    device_last_response := [("AA:BB", 0)]
    device_entity_callbacks := [("AA:BB", [7])]
    known_devices := ["AA:BB"] }

/-- An online cached snapshot with `last_updated = 5`. -/
def snapC5 : Snapshot :=
  { isOn := true, brightness := 70, rgb_color := some (1, 2, 3), temperature_color := none,
    scene := some "movie", sku := "P076", last_updated := 5, online := true }

/-- A coordinator state holding `snapC5`, silent since time 0. -/
def stC5 : CoordState :=
  { device_state_cache := [("AA:BB", snapC5)]
    device_last_response := [("AA:BB", 0)]
    device_entity_callbacks := []
    known_devices := ["AA:BB"] }

/-- An online cached snapshot for the command-then-sweep scenario. -/
def snapC6 : Snapshot :=
  { isOn := false, brightness := 20, rgb_color := none, temperature_color := none,
    scene := none, sku := "P076", last_updated := 0, online := true }

/-- A coordinator state whose device was last heard from at time 0. -/
def stC6 : CoordState :=
  { device_state_cache := [("AA:BB", snapC6)]
    device_last_response := [("AA:BB", 0)]
    device_entity_callbacks := []
    known_devices := ["AA:BB"] }

/-- A coordinator state with an empty device state cache. -/
def stC10 : CoordState :=
  { device_state_cache := []
    device_last_response := []
    device_entity_callbacks := []
    known_devices := [] }

/-! ## Association-list lemmas -/

theorem listLookup_insert_self {α : Type} (k : String) (v : α) (l : List (String × α)) :
    listLookup (listInsert k v l) k = some v := by
  induction l with
  | nil => simp [listInsert, listLookup]
  | cons hd tl ih =>
    obtain ⟨k', v'⟩ := hd
    by_cases hk : k = k'
    · simp [listInsert, hk, listLookup]
    · simp [listInsert, hk, listLookup, ih]

theorem listLookup_insert_ne {α : Type} {k k' : String} {v : α} {l : List (String × α)}
    (h : k' ≠ k) : listLookup (listInsert k v l) k' = listLookup l k' := by
  induction l with
  | nil => simp [listInsert, listLookup, h]
  | cons hd tl ih =>
    obtain ⟨a, b⟩ := hd
    by_cases hk : k = a
    · subst hk
      simp [listInsert, listLookup, h]
    · simp only [listInsert, if_neg hk, listLookup]
      by_cases hk' : k' = a
      · simp [hk']
      · simp [hk', ih]

theorem listLookup_mem_keys {α : Type} {l : List (String × α)} {k : String} {v : α}
    (h : listLookup l k = some v) : k ∈ l.map Prod.fst := by
  induction l with
  | nil => simp [listLookup] at h
  | cons hd tl ih =>
    obtain ⟨a, b⟩ := hd
    by_cases hk : k = a
    · simp [hk]
    · simp only [listLookup, if_neg hk] at h
      simp [ih h]

/-- Splitting a list at the first occurrence of a member. -/
theorem exists_split_first {l : List String} {fp : String} (h : fp ∈ l) :
    ∃ l1 l2, l = l1 ++ fp :: l2 ∧ fp ∉ l1 := by
  induction l with
  | nil => simp at h
  | cons hd tl ih =>
    by_cases hh : hd = fp
    · exact ⟨[], tl, by simp [hh], by simp⟩
    · have htl : fp ∈ tl := by
        rcases List.mem_cons.mp h with h1 | h1
        · exact absurd h1.symm hh
        · exact h1
      obtain ⟨l1, l2, heq, hnm⟩ := ih htl
      exact ⟨hd :: l1, l2, by simp [heq], by
        simp only [List.mem_cons, not_or]
        exact ⟨fun hc => hh hc.symm, hnm⟩⟩

/-! ## Sweep lemmas -/

/-- Lemma: `sweepOne` only rewrites the state cache. -/
theorem sweepOne_frame (now : Nat) (st : CoordState) (fp : String) :
    (sweepOne now st fp).1.device_last_response = st.device_last_response ∧
    (sweepOne now st fp).1.device_entity_callbacks = st.device_entity_callbacks ∧
    (sweepOne now st fp).1.known_devices = st.known_devices := by
  unfold sweepOne
  repeat' split
  all_goals simp

/-- A sweep step for a different fingerprint does not change this
fingerprint's cache entry. -/
theorem sweepOne_cache_ne (now : Nat) (st : CoordState) {fp fp' : String}
    (h : fp ≠ fp') :
    listLookup (sweepOne now st fp').1.device_state_cache fp
      = listLookup st.device_state_cache fp := by
  unfold sweepOne
  repeat' split
  all_goals simp [listLookup_insert_ne h]

/-- A sweep step only ever notifies its own fingerprint. -/
theorem sweepOne_notes (now : Nat) (st : CoordState) (fp' : String) :
    ∀ x ∈ (sweepOne now st fp').2, x = fp' := by
  unfold sweepOne
  repeat' split
  all_goals simp

/-- A sweep step on an already-offline cache entry is a complete no-op
with no notification. -/
theorem sweepOne_offline (now : Nat) (st : CoordState) {fp : String} {snap : Snapshot}
    (h : listLookup st.device_state_cache fp = some snap) (ho : snap.online = false) :
    sweepOne now st fp = (st, []) := by
  simp [sweepOne, h, ho]

/-- Lemma: `sweepGo` only rewrites the state cache. -/
theorem sweepGo_frame (now : Nat) (l : List String) (st : CoordState) :
    (sweepGo now l st).1.device_last_response = st.device_last_response ∧
    (sweepGo now l st).1.device_entity_callbacks = st.device_entity_callbacks ∧
    (sweepGo now l st).1.known_devices = st.known_devices := by
  induction l generalizing st with
  | nil => simp [sweepGo]
  | cons hd tl ih =>
    have h1 := sweepOne_frame now st hd
    have h2 := ih (sweepOne now st hd).1
    simp only [sweepGo]
    exact ⟨h2.1.trans h1.1, h2.2.1.trans h1.2.1, h2.2.2.trans h1.2.2⟩

/-- Sweeping fingerprints other than `fp` neither changes `fp`'s cache entry
nor notifies `fp`. -/
theorem sweepGo_not_mem (now : Nat) {l : List String} {fp : String} (st : CoordState)
    (h : fp ∉ l) :
    listLookup (sweepGo now l st).1.device_state_cache fp
        = listLookup st.device_state_cache fp ∧
    fp ∉ (sweepGo now l st).2 := by
  induction l generalizing st with
  | nil => simp [sweepGo]
  | cons hd tl ih =>
    have hne : fp ≠ hd := fun hc => h (by simp [hc])
    have htl : fp ∉ tl := fun hc => h (by simp [hc])
    have h1 := sweepOne_cache_ne now st hne
    have h2 := ih (sweepOne now st hd).1 htl
    refine ⟨h2.1.trans h1, ?_⟩
    simp only [sweepGo, List.mem_append, not_or]
    exact ⟨fun hc => hne (sweepOne_notes now st hd fp hc), h2.2⟩

/-- An offline cache entry is left untouched and never notified by any
sweep, whatever fingerprints the sweep visits. -/
theorem sweepGo_offline_absorb (now : Nat) (l : List String) {fp : String}
    {snap : Snapshot} (st : CoordState)
    (h : listLookup st.device_state_cache fp = some snap) (ho : snap.online = false) :
    listLookup (sweepGo now l st).1.device_state_cache fp = some snap ∧
    fp ∉ (sweepGo now l st).2 := by
  induction l generalizing st with
  | nil => simpa [sweepGo] using h
  | cons hd tl ih =>
    by_cases hh : fp = hd
    · subst hh
      have hstep : sweepOne now st fp = (st, []) := sweepOne_offline now st h ho
      simp only [sweepGo, hstep]
      have := ih st h
      simpa using this
    · have h1 : listLookup (sweepOne now st hd).1.device_state_cache fp = some snap :=
        (sweepOne_cache_ne now st hh).trans h
      have h2 := ih (sweepOne now st hd).1 h1
      refine ⟨h2.1, ?_⟩
      simp only [sweepGo, List.mem_append, not_or]
      exact ⟨fun hc => hh (sweepOne_notes now st hd fp hc), h2.2⟩

/-- Lemma: `sweepGo` over an appended list runs the two halves in sequence. -/
theorem sweepGo_append (now : Nat) (l1 l2 : List String) (st : CoordState) :
    sweepGo now (l1 ++ l2) st =
      ((sweepGo now l2 (sweepGo now l1 st).1).1,
       (sweepGo now l1 st).2 ++ (sweepGo now l2 (sweepGo now l1 st).1).2) := by
  induction l1 generalizing st with
  | nil => simp [sweepGo]
  | cons hd tl ih =>
    simp only [List.cons_append, sweepGo, List.append_eq, ih (sweepOne now st hd).1,
      List.append_assoc]

/-! ## Registry lemmas -/

theorem listLookup_append_of_none {α : Type} {l : List (String × α)} {k : String}
    (h : listLookup l k = none) (l' : List (String × α)) :
    listLookup (l ++ l') k = listLookup l' k := by
  induction l with
  | nil => simp
  | cons hd tl ih =>
    obtain ⟨a, b⟩ := hd
    by_cases hk : k = a
    · simp [listLookup, hk] at h
    · simp only [listLookup, if_neg hk] at h
      simp only [List.cons_append, listLookup, if_neg hk]
      exact ih h

/-- Every callback in the list is invoked, in order, whatever each callback
does when called. -/
theorem invokeAll_fst (beh : Nat → Except String Unit) (l : List Nat) :
    (invokeAll beh l).1 = l := by
  induction l with
  | nil => rfl
  | cons cb rest ih => simp [invokeAll, ih]

/-- The callback list registered for a fingerprint after a `subscribe`. -/
theorem register_lookup (fp : String) (cb : Nat) (cbs : List (String × List Nat)) :
    listLookup (register_device_entity fp cb cbs) fp =
      some (if cb ∈ (listLookup cbs fp).getD [] then (listLookup cbs fp).getD []
            else (listLookup cbs fp).getD [] ++ [cb]) := by
  unfold register_device_entity
  cases hl : listLookup cbs fp with
  | none =>
    simp only [hl, Option.getD_none]
    rw [listLookup_append_of_none hl]
    simp [listLookup]
  | some cur =>
    simp only [hl, Option.getD_some]
    by_cases hc : cb ∈ cur
    · simp [hc, hl]
    · simp [hc, listLookup_insert_self]

/-! ## Claims -/

/-- Claim C1: every command operation (turn_on, turn_off, set_brightness,
set_rgb_color, set_temperature, set_scene) invoked through the entity layer
for a device whose liveness check reports it offline is rejected locally as a
benign no-op: no transport send is attempted, no exception is raised to the
caller, no notification fires, and the coordinator state (in particular the
state cache) is left unchanged. -/
theorem C1_offline_command_noop (c : Command) (sendRes : Except String Unit)
    (now : Nat) (fp : String) (st : CoordState)
    (h : is_device_online st fp = false) :
    entityDispatch c sendRes now fp st =
      { state := st, notified := [], sent := false, result := Except.ok () } := by
  simp [entityDispatch, h]

/-- Witness for C1 at a concrete offline device. -/
theorem C1_offline_command_noop_witness :
    is_device_online stC1 "AA:BB" = false ∧
    entityDispatch Command.turnOn (Except.ok ()) 5 "AA:BB" stC1 =
      { state := stC1, notified := [], sent := false, result := Except.ok () } :=
  ⟨by decide,
   C1_offline_command_noop Command.turnOn (Except.ok ()) 5 "AA:BB" stC1 (by decide)⟩

/-- Claim C4: for every command operation, if the transport send raises, the error
is propagated to the caller of the coordinator method, the coordinator state
(hence the cache entry of every fingerprint) is completely unchanged, and no
subscriber notification fires. -/
theorem C4_transport_failure_atomic (c : Command) (e : String) (now : Nat)
    (fp : String) (st : CoordState) :
    coordDispatch c (Except.error e) now fp st =
      { state := st, notified := [], sent := true, result := Except.error e } := by
  cases c <;> rfl

/-- Claim C7: handling any received message attributable to a device — a status
push (`_handle_device_update`) or a discovery announcement, new or not
(`_handle_device_discovery`) — writes a cache entry whose `online` flag is
true at message-handling time, so `is_device_online` reports true right after
the handler runs, with no sweep involved. -/
theorem C7_message_sets_online_immediately (now : Nat) (d : Device)
    (st : CoordState) (isNew : Bool) :
    listLookup (handle_device_update now d st).1.device_state_cache d.fingerprint
        = some (snapshotOfDevice now d) ∧
    listLookup (handle_device_discovery now d isNew st).1.device_state_cache d.fingerprint
        = some (snapshotOfDevice now d) ∧
    (snapshotOfDevice now d).online = true ∧
    is_device_online (handle_device_update now d st).1 d.fingerprint = true ∧
    is_device_online (handle_device_discovery now d isNew st).1 d.fingerprint = true := by
  have h1 : listLookup (handle_device_update now d st).1.device_state_cache d.fingerprint
      = some (snapshotOfDevice now d) := by
    simp [handle_device_update, update_device_state_cache, listLookup_insert_self]
  have h2 : listLookup (handle_device_discovery now d isNew st).1.device_state_cache d.fingerprint
      = some (snapshotOfDevice now d) := by
    cases isNew <;>
      simp [handle_device_discovery, update_device_state_cache, listLookup_insert_self]
  refine ⟨h1, h2, rfl, ?_, ?_⟩
  · simp [is_device_online, h1, snapshotOfDevice]
  · simp [is_device_online, h2, snapshotOfDevice]

/-- Claim C9: notify invokes exactly the registered callbacks of the fingerprint,
in registration order, for every possible callback behaviour — so a callback
that raises neither prevents the remaining callbacks from being invoked nor
changes the set of invocations — and the notify path itself returns normally
(its result type carries no exception; a raising callback only contributes a
logged message). -/
theorem C9_notify_fault_isolation (beh : Nat → Except String Unit)
    (cbs : List (String × List Nat)) (fp : String) :
    (notify_device_entities beh cbs fp).1 = (listLookup cbs fp).getD [] ∧
    (notify_device_entities beh cbs fp).1 =
      (notify_device_entities (fun _ => Except.ok ()) cbs fp).1 := by
  have h : ∀ b : Nat → Except String Unit,
      (notify_device_entities b cbs fp).1 = (listLookup cbs fp).getD [] := by
    intro b
    unfold notify_device_entities
    cases hl : listLookup cbs fp with
    | none => simp
    | some l => simp [invokeAll_fst]
  exact ⟨h beh, (h beh).trans (h _).symm⟩

/-- Claim C10: a command that succeeds on a fingerprint with no cache entry leaves
the coordinator state exactly as it was (in particular it creates no cache
entry) and fires no subscriber notification. -/
theorem C10_command_never_creates_entry (c : Command) (now : Nat) (fp : String)
    (st : CoordState) (h : listLookup st.device_state_cache fp = none) :
    coordDispatch c (Except.ok ()) now fp st =
      { state := st, notified := [], sent := true, result := Except.ok () } ∧
    listLookup (coordDispatch c (Except.ok ()) now fp st).state.device_state_cache fp
      = none := by
  have he : coordDispatch c (Except.ok ()) now fp st =
      { state := st, notified := [], sent := true, result := Except.ok () } := by
    unfold coordDispatch
    simp [h]
  exact ⟨he, by rw [he]; exact h⟩

/-- Witness for C10 on the empty cache. -/
theorem C10_command_never_creates_entry_witness :
    listLookup stC10.device_state_cache "AA:BB" = none ∧
    (coordDispatch Command.turnOn (Except.ok ()) 4 "AA:BB" stC10 =
      { state := stC10, notified := [], sent := true, result := Except.ok () } ∧
    listLookup (coordDispatch Command.turnOn (Except.ok ()) 4 "AA:BB" stC10).state.device_state_cache "AA:BB"
      = none) :=
  ⟨by decide, C10_command_never_creates_entry Command.turnOn 4 "AA:BB" stC10 (by decide)⟩

/-- Claim C2 counterexample: inbound status/discovery ingestion copies both colour
fields verbatim from the device object, so ingesting a device that reports
both an RGB colour and a colour temperature leaves a cache snapshot with
`rgb_color = (10,20,30)` and `temperature_color = 4000` simultaneously set,
violating the claimed exclusivity after that operation. -/
theorem C2_counterexample :
    listLookup (update_device_state_cache 7 devC2both []) "AA:BB" = some snapC2both ∧
    snapC2both.rgb_color = some (10, 20, 30) ∧
    snapC2both.temperature_color = some 4000 ∧
    colorStateValid snapC2both = false := by decide

/-- Claim C2 amended: the command operations do enforce mutual exclusion —
`set_rgb_color` sets `rgb_color` and clears `temperature_color`,
`set_temperature` sets `temperature_color` and clears `rgb_color`, and the
scenario set_rgb_color(10,20,30) then set_temperature(4000) ends with
`rgb_color = None` and `temperature_color = 4000` — while ingestion copies
both colour fields verbatim from the device, so it yields a valid snapshot
exactly when the device's own attributes are mutually exclusive. -/
theorem C2_color_exclusion_amended (st : CoordState) (fp : String) (snap : Snapshot)
    (r g b k now1 now2 : Nat) (d : Device)
    (h : listLookup st.device_state_cache fp = some snap) :
    listLookup (coordDispatch (Command.setRgb r g b) (Except.ok ()) now1 fp st).state.device_state_cache fp
        = some { snap with rgb_color := some (r, g, b), temperature_color := none,
                           last_updated := now1 } ∧
    colorStateValid { snap with rgb_color := some (r, g, b), temperature_color := none,
                                last_updated := now1 } = true ∧
    listLookup (coordDispatch (Command.setTemperature k) (Except.ok ()) now1 fp st).state.device_state_cache fp
        = some { snap with temperature_color := some k, rgb_color := none,
                           last_updated := now1 } ∧
    colorStateValid { snap with temperature_color := some k, rgb_color := none,
                                last_updated := now1 } = true ∧
    listLookup (coordDispatch (Command.setTemperature k) (Except.ok ()) now2 fp
          (coordDispatch (Command.setRgb r g b) (Except.ok ()) now1 fp st).state).state.device_state_cache fp
        = some { snap with rgb_color := none, temperature_color := some k,
                           last_updated := now2 } ∧
    colorStateValid (snapshotOfDevice now1 d) =
      !(d.rgb_color.isSome && d.temperature_color.isSome) := by
  have h1 : listLookup (coordDispatch (Command.setRgb r g b) (Except.ok ()) now1 fp st).state.device_state_cache fp
      = some { snap with rgb_color := some (r, g, b), temperature_color := none,
                         last_updated := now1 } := by
    unfold coordDispatch
    simp [h, commandPatch, listLookup_insert_self]
  have h2 : listLookup (coordDispatch (Command.setTemperature k) (Except.ok ()) now1 fp st).state.device_state_cache fp
      = some { snap with temperature_color := some k, rgb_color := none,
                         last_updated := now1 } := by
    unfold coordDispatch
    simp [h, commandPatch, listLookup_insert_self]
  have h3 : listLookup (coordDispatch (Command.setTemperature k) (Except.ok ()) now2 fp
        (coordDispatch (Command.setRgb r g b) (Except.ok ()) now1 fp st).state).state.device_state_cache fp
      = some { snap with rgb_color := none, temperature_color := some k,
                         last_updated := now2 } := by
    unfold coordDispatch
    simp [h, commandPatch, listLookup_insert_self]
  exact ⟨h1, rfl, h2, rfl, h3, rfl⟩

/-- Witness for the amended C2 at the spec's Scenario C. -/
theorem C2_color_exclusion_amended_witness :
    listLookup stC2.device_state_cache "AA:BB" = some snapC2 ∧
    listLookup (coordDispatch (Command.setRgb 10 20 30) (Except.ok ()) 8 "AA:BB" stC2).state.device_state_cache "AA:BB"
        = some { snapC2 with rgb_color := some (10, 20, 30), temperature_color := none,
                             last_updated := 8 } ∧
    colorStateValid { snapC2 with rgb_color := some (10, 20, 30), temperature_color := none,
                                  last_updated := 8 } = true ∧
    listLookup (coordDispatch (Command.setTemperature 4000) (Except.ok ()) 8 "AA:BB" stC2).state.device_state_cache "AA:BB"
        = some { snapC2 with temperature_color := some 4000, rgb_color := none,
                             last_updated := 8 } ∧
    colorStateValid { snapC2 with temperature_color := some 4000, rgb_color := none,
                                  last_updated := 8 } = true ∧
    listLookup (coordDispatch (Command.setTemperature 4000) (Except.ok ()) 9 "AA:BB"
          (coordDispatch (Command.setRgb 10 20 30) (Except.ok ()) 8 "AA:BB" stC2).state).state.device_state_cache "AA:BB"
        = some { snapC2 with rgb_color := none, temperature_color := some 4000,
                             last_updated := 9 } ∧
    colorStateValid (snapshotOfDevice 8 devC2ok) =
      !(devC2ok.rgb_color.isSome && devC2ok.temperature_color.isSome) :=
  ⟨by decide,
   C2_color_exclusion_amended stC2 "AA:BB" snapC2 10 20 30 4000 8 9 devC2ok (by decide)⟩

/-- Claim C5 counterexample: at time 100, the sweep's mark-offline step on a
snapshot with `last_updated = 5` rewrites `last_updated` to 100, so the
resulting entry is not the old snapshot with only `online` flipped. -/
theorem C5_counterexample :
    listLookup (sweepOne 100 stC5 "AA:BB").1.device_state_cache "AA:BB"
        = some { snapC5 with online := false, last_updated := 100 } ∧
    listLookup (sweepOne 100 stC5 "AA:BB").1.device_state_cache "AA:BB"
        ≠ some { snapC5 with online := false } ∧
    snapC5.last_updated = 5 := by decide

/-- Claim C5 amended: the sweep's mark-offline step sets `online = false` and
refreshes `last_updated` to the sweep time, leaving every other snapshot
field (on, brightness, colours, scene, sku) unchanged, and notifies the
fingerprint once; applied to an already-offline snapshot it is a complete
no-op — the state is untouched and no notification fires — so the step is
idempotent and false→false is not a transition. -/
theorem C5_mark_offline_amended (now : Nat) (st : CoordState) (fp : String)
    (snap : Snapshot)
    (h : listLookup st.device_state_cache fp = some snap)
    (hstale : now - (listLookup st.device_last_response fp).getD 0 > 90) :
    (snap.online = true →
      sweepOne now st fp =
        ({ st with device_state_cache :=
                      listInsert fp { snap with online := false, last_updated := now } st.device_state_cache },
         [fp])) ∧
    (snap.online = false → sweepOne now st fp = (st, [])) := by
  constructor
  · intro ho
    simp [sweepOne, h, ho, hstale]
  · intro ho
    exact sweepOne_offline now st h ho

/-- Witness for the amended C5: the step at time 100 on an online entry,
then again on the result. -/
theorem C5_mark_offline_amended_witness :
    listLookup stC5.device_state_cache "AA:BB" = some snapC5 ∧
    100 - (listLookup stC5.device_last_response "AA:BB").getD 0 > 90 ∧
    ((snapC5.online = true →
      sweepOne 100 stC5 "AA:BB" =
        ({ stC5 with device_state_cache :=
                       listInsert "AA:BB" { snapC5 with online := false, last_updated := 100 } stC5.device_state_cache },
         ["AA:BB"])) ∧
    (snapC5.online = false → sweepOne 100 stC5 "AA:BB" = (stC5, []))) :=
  ⟨by decide, by decide,
   C5_mark_offline_amended 100 stC5 "AA:BB" snapC5 (by decide) (by decide)⟩

/-- Claim C6 counterexample: the device of `stC6` was last heard from at time 0; a
successful turn_on at time 50 leaves `_device_last_response` at 0 (commands do
not refresh it), so the sweep at time 95 — only 45 seconds after the
successful command — demotes the device to offline and notifies, contradicting
the claim that command dispatch refreshes last-seen and prevents demotion. -/
theorem C6_counterexample :
    (coordDispatch Command.turnOn (Except.ok ()) 50 "AA:BB" stC6).result = Except.ok () ∧
    listLookup (coordDispatch Command.turnOn (Except.ok ()) 50 "AA:BB" stC6).state.device_last_response "AA:BB"
        = some 0 ∧
    (sweep 95 (coordDispatch Command.turnOn (Except.ok ()) 50 "AA:BB" stC6).state).2
        = ["AA:BB"] ∧
    is_device_online (sweep 95 (coordDispatch Command.turnOn (Except.ok ()) 50 "AA:BB" stC6).state).1 "AA:BB"
        = false := by decide

/-- Claim C6 amended: the last-seen timestamp is refreshed by every inbound
datagram attributable to the device — discovery announcement and status push
both write `_device_last_response[fingerprint] = now` — but the coordinator's
optimistic update after a successful command does not touch
`_device_last_response` at all, so command dispatch alone does not keep a
device online across sweeps. -/
theorem C6_last_seen_refresh_amended (now : Nat) (d : Device) (st : CoordState)
    (isNew : Bool) (c : Command) (sendRes : Except String Unit) (fp : String) :
    listLookup (handle_device_update now d st).1.device_last_response d.fingerprint
        = some now ∧
    listLookup (handle_device_discovery now d isNew st).1.device_last_response d.fingerprint
        = some now ∧
    (coordDispatch c sendRes now fp st).state.device_last_response
        = st.device_last_response := by
  refine ⟨?_, ?_, ?_⟩
  · simp [handle_device_update, listLookup_insert_self]
  · cases isNew <;> simp [handle_device_discovery, listLookup_insert_self]
  · cases sendRes with
    | error e => rfl
    | ok u =>
      unfold coordDispatch
      cases listLookup st.device_state_cache fp <;> rfl

/-- A subscribe onto a list already containing the callback is exactly a
no-op. -/
theorem register_mem_noop {fp : String} {cb : Nat} {X : List (String × List Nat)}
    {L : List Nat} (hl : listLookup X fp = some L) (hm : cb ∈ L) :
    register_device_entity fp cb X = X := by
  unfold register_device_entity
  rw [hl]
  simp [hm]

/-- Claim C8: subscribing the same callback twice is a no-op the second time, so a
notify after a double subscribe invokes it exactly once; unsubscribing a
callback that is not registered is a no-op; and a notify after an unsubscribe
never invokes the removed callback (given the registry invariant that a
callback appears at most once in a fingerprint's list, which subscribe
maintains). -/
theorem C8_subscribe_unsubscribe (beh : Nat → Except String Unit) (fp : String)
    (cb : Nat) (cbs : List (String × List Nat))
    (h : ((listLookup cbs fp).getD []).count cb ≤ 1) :
    register_device_entity fp cb (register_device_entity fp cb cbs)
        = register_device_entity fp cb cbs ∧
    (notify_device_entities beh
        (register_device_entity fp cb (register_device_entity fp cb cbs)) fp).1.count cb = 1 ∧
    (cb ∉ (listLookup cbs fp).getD [] → unregister_device_entity fp cb cbs = cbs) ∧
    cb ∉ (notify_device_entities beh (unregister_device_entity fp cb cbs) fp).1 := by
  have hcur := register_lookup fp cb cbs
  have hmemL : cb ∈ (if cb ∈ (listLookup cbs fp).getD [] then (listLookup cbs fp).getD []
      else (listLookup cbs fp).getD [] ++ [cb]) := by
    by_cases hc : cb ∈ (listLookup cbs fp).getD []
    · simp [hc]
    · simp [hc]
  have h1 : register_device_entity fp cb (register_device_entity fp cb cbs)
      = register_device_entity fp cb cbs := register_mem_noop hcur hmemL
  have hnot : (notify_device_entities beh (register_device_entity fp cb cbs) fp).1 =
      (if cb ∈ (listLookup cbs fp).getD [] then (listLookup cbs fp).getD []
       else (listLookup cbs fp).getD [] ++ [cb]) := by
    unfold notify_device_entities
    rw [hcur]
    simp [invokeAll_fst]
  have h2 : (notify_device_entities beh
      (register_device_entity fp cb (register_device_entity fp cb cbs)) fp).1.count cb = 1 := by
    rw [h1, hnot]
    by_cases hc : cb ∈ (listLookup cbs fp).getD []
    · have hpos : 0 < ((listLookup cbs fp).getD []).count cb := List.count_pos_iff.mpr hc
      simp only [if_pos hc]
      omega
    · have hz : ((listLookup cbs fp).getD []).count cb = 0 := List.count_eq_zero.mpr hc
      simp [hc, hz]
  have h3 : cb ∉ (listLookup cbs fp).getD [] → unregister_device_entity fp cb cbs = cbs := by
    intro hc
    unfold unregister_device_entity
    cases hl : listLookup cbs fp with
    | none => rfl
    | some cur =>
      rw [hl] at hc
      simp only [Option.getD_some] at hc
      simp [hc]
  have h4 : cb ∉ (notify_device_entities beh (unregister_device_entity fp cb cbs) fp).1 := by
    cases hl : listLookup cbs fp with
    | none =>
      have hu : unregister_device_entity fp cb cbs = cbs := by
        unfold unregister_device_entity
        rw [hl]
      rw [hu]
      unfold notify_device_entities
      rw [hl]
      simp
    | some cur =>
      rw [hl] at h
      simp only [Option.getD_some] at h
      by_cases hc : cb ∈ cur
      · have hu : unregister_device_entity fp cb cbs
            = listInsert fp (cur.erase cb) cbs := by
          unfold unregister_device_entity
          rw [hl]
          simp [hc]
        rw [hu]
        unfold notify_device_entities
        rw [listLookup_insert_self]
        simp only [invokeAll_fst]
        have hpos : 0 < cur.count cb := List.count_pos_iff.mpr hc
        have hz : (cur.erase cb).count cb = 0 := by
          rw [List.count_erase_self]
          omega
        exact List.count_eq_zero.mp hz
      · have hu : unregister_device_entity fp cb cbs = cbs := by
          unfold unregister_device_entity
          rw [hl]
          simp [hc]
        rw [hu]
        unfold notify_device_entities
        rw [hl]
        simpa [invokeAll_fst] using hc
  exact ⟨h1, h2, h3, h4⟩

/-- Witness for C8 with one registered callback. -/
theorem C8_subscribe_unsubscribe_witness :
    ((listLookup [("AA:BB", [7])] "AA:BB").getD []).count 7 ≤ 1 ∧
    (register_device_entity "AA:BB" 7 (register_device_entity "AA:BB" 7 [("AA:BB", [7])])
        = register_device_entity "AA:BB" 7 [("AA:BB", [7])] ∧
    (notify_device_entities (fun _ => Except.ok ())
        (register_device_entity "AA:BB" 7
          (register_device_entity "AA:BB" 7 [("AA:BB", [7])])) "AA:BB").1.count 7 = 1 ∧
    (7 ∉ (listLookup [("AA:BB", [7])] "AA:BB").getD [] →
        unregister_device_entity "AA:BB" 7 [("AA:BB", [7])] = [("AA:BB", [7])]) ∧
    7 ∉ (notify_device_entities (fun _ => Except.ok ())
        (unregister_device_entity "AA:BB" 7 [("AA:BB", [7])]) "AA:BB").1) :=
  ⟨by decide,
   C8_subscribe_unsubscribe (fun _ => Except.ok ()) "AA:BB" 7 [("AA:BB", [7])] (by decide)⟩

/-- A sweep never notifies a fingerprint whose cache entry is already
offline, and leaves that entry unchanged. -/
theorem sweep_offline_no_notes {fp : String} {snap : Snapshot} (now2 : Nat)
    (st2 : CoordState)
    (h : listLookup st2.device_state_cache fp = some snap)
    (ho : snap.online = false) :
    listLookup (sweep now2 st2).1.device_state_cache fp = some snap ∧
    (sweep now2 st2).2.count fp = 0 := by
  have habs := sweepGo_offline_absorb now2
    (st2.device_last_response.map Prod.fst) st2 h ho
  exact ⟨habs.1, List.count_eq_zero.mpr habs.2⟩

/-- Claim C3: a fingerprint whose last response is more than the 90-second offline
threshold before a sweep and whose cached snapshot is online is marked
offline by that sweep and notified exactly once in the sweep's fan-out; a
later sweep over the resulting state, with the device still silent, does not
notify that fingerprint again (edge-triggered, not per-sweep). -/
theorem C3_offline_sweep_edge_triggered (st : CoordState) (fp : String)
    (t now now2 : Nat) (snap : Snapshot)
    (hlast : listLookup st.device_last_response fp = some t)
    (hstale : now - t > 90)
    (hsnap : listLookup st.device_state_cache fp = some snap)
    (honline : snap.online = true)
    (hlater : now ≤ now2) :
    listLookup (sweep now st).1.device_state_cache fp
        = some { snap with online := false, last_updated := now } ∧
    (sweep now st).2.count fp = 1 ∧
    (sweep now2 (sweep now st).1).2.count fp = 0 := by
  obtain ⟨l1, l2, heq, hnm⟩ := exists_split_first (listLookup_mem_keys hlast)
  have hc1 : listLookup (sweepGo now l1 st).1.device_state_cache fp = some snap :=
    (sweepGo_not_mem now st hnm).1.trans hsnap
  have hn1 : fp ∉ (sweepGo now l1 st).2 := (sweepGo_not_mem now st hnm).2
  have hlr1 : (sweepGo now l1 st).1.device_last_response = st.device_last_response :=
    (sweepGo_frame now l1 st).1
  have hstep : sweepOne now (sweepGo now l1 st).1 fp = ({ (sweepGo now l1 st).1 with device_state_cache := listInsert fp { snap with online := false, last_updated := now } (sweepGo now l1 st).1.device_state_cache }, [fp]) := by
    simp [sweepOne, hlr1, hlast, hstale, hc1, honline]
  have hins : listLookup (sweepOne now (sweepGo now l1 st).1 fp).1.device_state_cache fp
      = some { snap with online := false, last_updated := now } := by
    rw [hstep]
    exact listLookup_insert_self _ _ _
  have habs := sweepGo_offline_absorb now l2
    (sweepOne now (sweepGo now l1 st).1 fp).1 hins rfl
  have hsweep : sweep now st =
      ((sweepGo now l2 (sweepOne now (sweepGo now l1 st).1 fp).1).1,
       (sweepGo now l1 st).2 ++
         ((sweepOne now (sweepGo now l1 st).1 fp).2 ++
           (sweepGo now l2 (sweepOne now (sweepGo now l1 st).1 fp).1).2)) := by
    unfold sweep
    rw [heq, sweepGo_append]
    simp only [sweepGo]
  have hfst : listLookup (sweep now st).1.device_state_cache fp
      = some { snap with online := false, last_updated := now } := by
    rw [hsweep]
    exact habs.1
  refine ⟨hfst, ?_, ?_⟩
  · rw [hsweep]
    have h2 : (sweepOne now (sweepGo now l1 st).1 fp).2 = [fp] := by rw [hstep]
    rw [h2]
    simp [List.count_append, List.count_eq_zero.mpr hn1,
      List.count_eq_zero.mpr habs.2, List.count_cons]
  · exact (sweep_offline_no_notes now2 (sweep now st).1 hfst rfl).2

/-- Witness for C3: Scenario B with the code's 90-second threshold — last
seen at t=0, sweep at t=95 marks offline and notifies once, sweep at t=150
does not notify again. -/
theorem C3_offline_sweep_edge_triggered_witness :
    listLookup stC3.device_last_response "AA:BB" = some 0 ∧
    95 - 0 > 90 ∧
    listLookup stC3.device_state_cache "AA:BB" = some snapC3 ∧
    snapC3.online = true ∧
    95 ≤ 150 ∧
    (listLookup (sweep 95 stC3).1.device_state_cache "AA:BB"
        = some { snapC3 with online := false, last_updated := 95 } ∧
    (sweep 95 stC3).2.count "AA:BB" = 1 ∧
    (sweep 150 (sweep 95 stC3).1).2.count "AA:BB" = 0) :=
  ⟨by decide, by decide, by decide, by decide, by decide,
   C3_offline_sweep_edge_triggered stC3 "AA:BB" 0 95 150 snapC3
     (by decide) (by decide) (by decide) (by decide) (by decide)⟩

end DayBetter
